import Mathlib

/-!
Verification development for the Blender shelf-generation scripts
(`src/blender/gen_shelf.py`, `src/blender/gen_shelf_modular.py` and the
modules under `src/blender/geometry/` and `src/blender/utils/`).

The scripts build axis-aligned box meshes and triangular-prism meshes,
position them by closed-form rational arithmetic, attach materials, and
export the result.  We embed the mesh data model and the arithmetic of
those operations over exact rationals and prove the spec-level claims
about them.
-/

/-- A 3D point / vector with exact rational coordinates. -/
structure Vec3 where
  x : ℚ
  y : ℚ
  z : ℚ
deriving DecidableEq, Repr

/-- A flat material record, as produced by `bpy.data.materials.new` plus the
parameter assignments the scripts perform (base color RGBA, roughness, and
optional metallic / specular values; unset scalar parameters stay 0). -/
structure Material where
  mname : String
  base_color : ℚ × ℚ × ℚ × ℚ
  roughness : ℚ
  metallic : ℚ
  specular : ℚ
deriving DecidableEq, Repr

/-- A mesh object: name, vertex list, face list (vertex-index tuples),
world translation, Z Euler angle, and its material slot list.  Mirrors
the parts of `bpy.types.Object` the scripts read and write. -/
structure MeshObject where
  name : String
  verts : List Vec3
  faces : List (List ℕ)
  location : Vec3
  rot_z : ℚ
  materials : List Material
deriving DecidableEq, Repr

/-- Vertices of the unit cube produced by `bmesh.ops.create_cube(bm, size=1.0)`
(and by `bpy.ops.mesh.primitive_cube_add(size=1)`): the eight corners at
coordinates plus or minus one half. -/
def unitCubeVerts : List Vec3 :=
  [⟨-(1/2), -(1/2), -(1/2)⟩, ⟨-(1/2), -(1/2), 1/2⟩,
   ⟨-(1/2), 1/2, -(1/2)⟩,  ⟨-(1/2), 1/2, 1/2⟩,
   ⟨1/2, -(1/2), -(1/2)⟩,  ⟨1/2, -(1/2), 1/2⟩,
   ⟨1/2, 1/2, -(1/2)⟩,     ⟨1/2, 1/2, 1/2⟩]

/-- The six quad faces of the cube, as vertex-index tuples into
`unitCubeVerts`. -/
def cubeFaces : List (List ℕ) :=
  [[0, 1, 3, 2], [4, 6, 7, 5], [0, 4, 5, 1], [2, 3, 7, 6], [0, 2, 6, 4], [1, 5, 7, 3]]

/-- `bmesh.ops.scale(bm, vec=s, verts=...)`: componentwise scaling of every
vertex. -/
def scaleVerts (s : Vec3) (vs : List Vec3) : List Vec3 :=
  vs.map fun v => ⟨v.x * s.x, v.y * s.y, v.z * s.z⟩

/-- `geometry/shelf.py: create_main_shelf(name, width, height, depth)` —
a unit cube scaled by `vec=(width, depth, height)`, left at the origin. -/
def create_main_shelf (nm : String) (width height depth : ℚ) : MeshObject :=
  ⟨nm, scaleVerts ⟨width, depth, height⟩ unitCubeVerts, cubeFaces, ⟨0, 0, 0⟩, 0, []⟩

/-- `geometry/backing.py: create_backing_plane(name, width, height, thickness)` —
a unit cube scaled by `vec=(width, thickness, height)`, left at the origin. -/
def create_backing_plane (nm : String) (width height thickness : ℚ) : MeshObject :=
  ⟨nm, scaleVerts ⟨width, thickness, height⟩ unitCubeVerts, cubeFaces, ⟨0, 0, 0⟩, 0, []⟩

/-- Minimum X coordinate of the axis-aligned bounding box of a mesh. -/
def minX (m : MeshObject) : ℚ := ((m.verts.map Vec3.x).minimum).untop' 0

/-- Maximum X coordinate of the axis-aligned bounding box of a mesh. -/
def maxX (m : MeshObject) : ℚ := ((m.verts.map Vec3.x).maximum).unbot' 0

/-- Minimum Y coordinate of the axis-aligned bounding box of a mesh. -/
def minY (m : MeshObject) : ℚ := ((m.verts.map Vec3.y).minimum).untop' 0

/-- Maximum Y coordinate of the axis-aligned bounding box of a mesh. -/
def maxY (m : MeshObject) : ℚ := ((m.verts.map Vec3.y).maximum).unbot' 0

/-- Minimum Z coordinate of the axis-aligned bounding box of a mesh. -/
def minZ (m : MeshObject) : ℚ := ((m.verts.map Vec3.z).minimum).untop' 0

/-- Maximum Z coordinate of the axis-aligned bounding box of a mesh. -/
def maxZ (m : MeshObject) : ℚ := ((m.verts.map Vec3.z).maximum).unbot' 0

/-- Bounding-box extent along X (`object.dimensions.x`). -/
def dimX (m : MeshObject) : ℚ := maxX m - minX m

/-- Bounding-box extent along Y (`object.dimensions.y`). -/
def dimY (m : MeshObject) : ℚ := maxY m - minY m

/-- Bounding-box extent along Z (`object.dimensions.z`). -/
def dimZ (m : MeshObject) : ℚ := maxZ m - minZ m

/-- The maximum of a rational list all of whose entries are `a` or `-a`,
with `a` nonnegative and present, is `a`. -/
lemma maximum_pm (l : List ℚ) (a : ℚ) (h0 : 0 ≤ a) (hmem : a ∈ l)
    (hall : ∀ x ∈ l, x = a ∨ x = -a) : l.maximum = (a : WithBot ℚ) := by
  refine List.maximum_eq_coe_iff.mpr ⟨hmem, fun b hb => ?_⟩
  rcases hall b hb with h | h <;> subst h <;> linarith

/-- The minimum of a rational list all of whose entries are `a` or `-a`,
with `a` nonnegative and `-a` present, is `-a`. -/
lemma minimum_pm (l : List ℚ) (a : ℚ) (h0 : 0 ≤ a) (hmem : -a ∈ l)
    (hall : ∀ x ∈ l, x = a ∨ x = -a) : l.minimum = ((-a : ℚ) : WithTop ℚ) := by
  refine List.minimum_eq_coe_iff.mpr ⟨hmem, fun b hb => ?_⟩
  rcases hall b hb with h | h <;> subst h <;> linarith

/-- X coordinates of a scaled unit cube. -/
lemma scaled_cube_xs (s : Vec3) :
    (scaleVerts s unitCubeVerts).map Vec3.x =
      [-(s.x / 2), -(s.x / 2), -(s.x / 2), -(s.x / 2),
       s.x / 2, s.x / 2, s.x / 2, s.x / 2] := by
  simp [scaleVerts, unitCubeVerts]
  ring_nf

/-- Y coordinates of a scaled unit cube. -/
lemma scaled_cube_ys (s : Vec3) :
    (scaleVerts s unitCubeVerts).map Vec3.y =
      [-(s.y / 2), -(s.y / 2), s.y / 2, s.y / 2,
       -(s.y / 2), -(s.y / 2), s.y / 2, s.y / 2] := by
  simp [scaleVerts, unitCubeVerts]
  ring_nf

/-- Z coordinates of a scaled unit cube. -/
lemma scaled_cube_zs (s : Vec3) :
    (scaleVerts s unitCubeVerts).map Vec3.z =
      [-(s.z / 2), s.z / 2, -(s.z / 2), s.z / 2,
       -(s.z / 2), s.z / 2, -(s.z / 2), s.z / 2] := by
  simp [scaleVerts, unitCubeVerts]
  ring_nf

/-- Bounding box of a mesh whose vertices are a scaled unit cube. -/
lemma scaled_cube_bbox (nm : String) (s : Vec3) (loc : Vec3) (rz : ℚ)
    (ms : List Material)
    (hx : 0 ≤ s.x) (hy : 0 ≤ s.y) (hz : 0 ≤ s.z) :
    minX ⟨nm, scaleVerts s unitCubeVerts, cubeFaces, loc, rz, ms⟩ = -(s.x / 2) ∧
    maxX ⟨nm, scaleVerts s unitCubeVerts, cubeFaces, loc, rz, ms⟩ = s.x / 2 ∧
    minY ⟨nm, scaleVerts s unitCubeVerts, cubeFaces, loc, rz, ms⟩ = -(s.y / 2) ∧
    maxY ⟨nm, scaleVerts s unitCubeVerts, cubeFaces, loc, rz, ms⟩ = s.y / 2 ∧
    minZ ⟨nm, scaleVerts s unitCubeVerts, cubeFaces, loc, rz, ms⟩ = -(s.z / 2) ∧
    maxZ ⟨nm, scaleVerts s unitCubeVerts, cubeFaces, loc, rz, ms⟩ = s.z / 2 := by
  refine ⟨?_, ?_, ?_, ?_, ?_, ?_⟩
  · unfold minX
    rw [scaled_cube_xs, minimum_pm _ (s.x / 2) (by linarith) (by simp)
      (by intro x hx2; fin_cases hx2 <;> first | (left ; rfl) | (right ; rfl))]
    rfl
  · unfold maxX
    rw [scaled_cube_xs, maximum_pm _ (s.x / 2) (by linarith) (by simp)
      (by intro x hx2; fin_cases hx2 <;> first | (left ; rfl) | (right ; rfl))]
    rfl
  · unfold minY
    rw [scaled_cube_ys, minimum_pm _ (s.y / 2) (by linarith) (by simp)
      (by intro x hx2; fin_cases hx2 <;> first | (left ; rfl) | (right ; rfl))]
    rfl
  · unfold maxY
    rw [scaled_cube_ys, maximum_pm _ (s.y / 2) (by linarith) (by simp)
      (by intro x hx2; fin_cases hx2 <;> first | (left ; rfl) | (right ; rfl))]
    rfl
  · unfold minZ
    rw [scaled_cube_zs, minimum_pm _ (s.z / 2) (by linarith) (by simp)
      (by intro x hx2; fin_cases hx2 <;> first | (left ; rfl) | (right ; rfl))]
    rfl
  · unfold maxZ
    rw [scaled_cube_zs, maximum_pm _ (s.z / 2) (by linarith) (by simp)
      (by intro x hx2; fin_cases hx2 <;> first | (left ; rfl) | (right ; rfl))]
    rfl

/-- Bounding box of the main shelf builder, in terms of its parameters. -/
lemma main_shelf_bbox (nm : String) (w h d : ℚ)
    (hw : 0 ≤ w) (hh : 0 ≤ h) (hd : 0 ≤ d) :
    minX (create_main_shelf nm w h d) = -(w / 2) ∧
    maxX (create_main_shelf nm w h d) = w / 2 ∧
    minY (create_main_shelf nm w h d) = -(d / 2) ∧
    maxY (create_main_shelf nm w h d) = d / 2 ∧
    minZ (create_main_shelf nm w h d) = -(h / 2) ∧
    maxZ (create_main_shelf nm w h d) = h / 2 :=
  scaled_cube_bbox nm ⟨w, d, h⟩ ⟨0, 0, 0⟩ 0 [] hw hd hh

/-- Bounding-box extents of the main shelf builder equal its parameters. -/
lemma main_shelf_dims (nm : String) (w h d : ℚ)
    (hw : 0 ≤ w) (hh : 0 ≤ h) (hd : 0 ≤ d) :
    dimX (create_main_shelf nm w h d) = w ∧
    dimY (create_main_shelf nm w h d) = d ∧
    dimZ (create_main_shelf nm w h d) = h := by
  obtain ⟨h1, h2, h3, h4, h5, h6⟩ := main_shelf_bbox nm w h d hw hh hd
  refine ⟨?_, ?_, ?_⟩
  · rw [dimX, h2, h1]; ring
  · rw [dimY, h4, h3]; ring
  · rw [dimZ, h6, h5]; ring

/-- Bounding-box extents of the backing plane builder equal its parameters
(width along X, thickness along Y, height along Z). -/
lemma backing_plane_dims (nm : String) (w h t : ℚ)
    (hw : 0 ≤ w) (hh : 0 ≤ h) (ht : 0 ≤ t) :
    dimX (create_backing_plane nm w h t) = w ∧
    dimY (create_backing_plane nm w h t) = t ∧
    dimZ (create_backing_plane nm w h t) = h := by
  obtain ⟨h1, h2, h3, h4, h5, h6⟩ :=
    scaled_cube_bbox nm ⟨w, t, h⟩ ⟨0, 0, 0⟩ 0 [] hw ht hh
  refine ⟨?_, ?_, ?_⟩
  · rw [dimX]
    rw [show maxX (create_backing_plane nm w h t) = w / 2 from h2,
      show minX (create_backing_plane nm w h t) = -(w / 2) from h1]
    ring
  · rw [dimY]
    rw [show maxY (create_backing_plane nm w h t) = t / 2 from h4,
      show minY (create_backing_plane nm w h t) = -(t / 2) from h3]
    ring
  · rw [dimZ]
    rw [show maxZ (create_backing_plane nm w h t) = h / 2 from h6,
      show minZ (create_backing_plane nm w h t) = -(h / 2) from h5]
    ring

/-- C1: for every positive width, height and depth, the shelf base builder
returns a mesh whose axis-aligned bounding box spans exactly
`[-width/2, width/2]` along X, `[-depth/2, depth/2]` along Y and
`[-height/2, height/2]` along Z, centered at the origin — so its extents
are exactly width along X, depth along Y and height along Z. -/
theorem shelf_base_bbox (w h d : ℚ) (hw : 0 < w) (hh : 0 < h) (hd : 0 < d) :
    minX (create_main_shelf "MainShelf" w h d) = -(w / 2) ∧
    maxX (create_main_shelf "MainShelf" w h d) = w / 2 ∧
    minY (create_main_shelf "MainShelf" w h d) = -(d / 2) ∧
    maxY (create_main_shelf "MainShelf" w h d) = d / 2 ∧
    minZ (create_main_shelf "MainShelf" w h d) = -(h / 2) ∧
    maxZ (create_main_shelf "MainShelf" w h d) = h / 2 ∧
    dimX (create_main_shelf "MainShelf" w h d) = w ∧
    dimY (create_main_shelf "MainShelf" w h d) = d ∧
    dimZ (create_main_shelf "MainShelf" w h d) = h := by
  obtain ⟨h1, h2, h3, h4, h5, h6⟩ :=
    main_shelf_bbox "MainShelf" w h d (le_of_lt hw) (le_of_lt hh) (le_of_lt hd)
  obtain ⟨g1, g2, g3⟩ :=
    main_shelf_dims "MainShelf" w h d (le_of_lt hw) (le_of_lt hh) (le_of_lt hd)
  exact ⟨h1, h2, h3, h4, h5, h6, g1, g2, g3⟩

/-- C1 witness: at width 2, height 3/10, depth 2/5 the shelf base box spans
exactly `[-1, 1]` times `[-1/5, 1/5]` times `[-3/20, 3/20]`. -/
theorem shelf_base_bbox_witness :
    minX (create_main_shelf "MainShelf" 2 (3/10) (2/5)) = -1 ∧
    maxX (create_main_shelf "MainShelf" 2 (3/10) (2/5)) = 1 ∧
    minY (create_main_shelf "MainShelf" 2 (3/10) (2/5)) = -(1/5) ∧
    maxY (create_main_shelf "MainShelf" 2 (3/10) (2/5)) = 1/5 ∧
    minZ (create_main_shelf "MainShelf" 2 (3/10) (2/5)) = -(3/20) ∧
    maxZ (create_main_shelf "MainShelf" 2 (3/10) (2/5)) = 3/20 := by
  obtain ⟨h1, h2, h3, h4, h5, h6, _⟩ :=
    shelf_base_bbox 2 (3/10) (2/5) (by norm_num) (by norm_num) (by norm_num)
  refine ⟨?_, ?_, ?_, ?_, ?_, ?_⟩
  · rw [h1]; norm_num
  · rw [h2]; norm_num
  · rw [h3]; norm_num
  · rw [h4]; norm_num
  · rw [h5]; norm_num
  · rw [h6]; norm_num

/-- `gen_shelf.py: create_support_bracket(width, height, depth)` — a
triangular prism from a hand-written vertex and face list. -/
def create_support_bracket (width height depth : ℚ) : MeshObject :=
  ⟨"SupportBracket",
   [⟨0, 0, 0⟩, ⟨width, 0, 0⟩, ⟨width, 0, height⟩,
    ⟨0, depth, 0⟩, ⟨width, depth, 0⟩, ⟨width, depth, height⟩],
   [[0, 1, 2], [3, 5, 4], [0, 3, 4, 1], [1, 4, 5, 2], [0, 2, 5, 3]],
   ⟨0, 0, 0⟩, 0, []⟩

/-- `geometry/brackets.py: create_bracket_support(name, length, height,
thickness)` — a triangle at `(0,0,0), (length,0,0), (0,0,-height)` extruded
by `(0, thickness, 0)`: six vertices, two triangular caps and three side
quads. -/
def create_bracket_support (nm : String) (len ht th : ℚ) : MeshObject :=
  ⟨nm,
   [⟨0, 0, 0⟩, ⟨len, 0, 0⟩, ⟨0, 0, -ht⟩,
    ⟨0, th, 0⟩, ⟨len, th, 0⟩, ⟨0, th, -ht⟩],
   [[0, 2, 1], [3, 4, 5], [0, 1, 4, 3], [1, 2, 5, 4], [2, 0, 3, 5]],
   ⟨0, 0, 0⟩, 0, []⟩

/-- `geometry/brackets.py: position_brackets_on_shelf(shelf_obj,
bracket_count)` — creates `bracket_count` brackets; bracket `i` is placed at
`shelf.x + x_pos` where `x_pos` is 0 for a single bracket and
`(i/(count-1) - 0.5) * (shelf_width * 0.8)` otherwise, at the shelf back
edge plus 0.03 in Y and the shelf underside in Z, with a fixed Z Euler
angle of 1.5555. -/
def position_brackets_on_shelf (shelf : MeshObject) (bracket_count : ℕ) :
    List MeshObject :=
  (List.range bracket_count).map fun (i : ℕ) =>
    let shelf_width := dimX shelf
    let shelf_depth := dimY shelf
    let shelf_height := dimZ shelf
    let x_pos : ℚ := if bracket_count = 1 then 0
      else ((i : ℚ) / ((bracket_count : ℚ) - 1) - 1/2) * (shelf_width * (8/10))
    let bracket_height := min (shelf_depth * (8/10)) (shelf_height * 3)
    let bracket_len := bracket_height * 2
    let b := create_bracket_support ("Bracket_" ++ toString (i + 1))
      bracket_len bracket_height (1/10)
    { b with
        location := ⟨shelf.location.x + x_pos,
                     shelf.location.y - shelf_depth * (1/2) + 3/100,
                     shelf.location.z - shelf_height * (1/2)⟩,
        rot_z := 15555/10000 }

/-- The X locations of the brackets returned by `position_brackets_on_shelf`. -/
def bracketXs (shelf : MeshObject) (n : ℕ) : List ℚ :=
  (position_brackets_on_shelf shelf n).map fun b => b.location.x

/-- `geometry/backing.py: position_backing_behind_shelf(backing_obj,
shelf_obj, offset)` — copies the shelf X and Z locations and sets
`y = shelf.y - shelf.dimensions.y/2 - offset`. -/
def position_backing_behind_shelf (backing shelf : MeshObject) (offset : ℚ) :
    MeshObject :=
  { backing with
      location := ⟨shelf.location.x,
                   shelf.location.y - dimY shelf / 2 - offset,
                   shelf.location.z⟩ }

/-- `geometry/crown.py: position_crown_above_backing(crown_obj, backing_obj,
height_offset)` — copies the backing X and Y locations and sets
`z = backing.z + backing.dimensions.z/2 + height_offset`. -/
def position_crown_above_backing (crown backing : MeshObject)
    (height_offset : ℚ) : MeshObject :=
  { crown with
      location := ⟨backing.location.x,
                   backing.location.y,
                   backing.location.z + dimZ backing / 2 + height_offset⟩ }

/-- `gen_shelf.py: position_components(shelf, brackets, backing, crown,
shelf_width, shelf_height, shelf_depth)` — the monolithic layout step:
backing at `(0, -shelf_depth/2 - 0.01, shelf_height/2)`, bracket `i` at
X `+0.4*width` for even `i` and `-0.4*width` for odd `i`, crown at
`(0, 0, shelf_height/2 + 0.08)`. Returns the repositioned
(brackets, backing, crown). -/
def position_components (brackets : List MeshObject) (backing crown : MeshObject)
    (shelf_width shelf_height shelf_depth : ℚ) :
    List MeshObject × MeshObject × MeshObject :=
  let backing2 :=
    { backing with location := ⟨0, -(shelf_depth / 2) - 1/100, shelf_height / 2⟩ }
  let brackets2 := brackets.enum.map fun (p : ℕ × MeshObject) =>
    let x_pos : ℚ := if p.1 % 2 = 0 then shelf_width * (4/10)
      else -(shelf_width * (4/10))
    { p.2 with location := ⟨x_pos, 0, -(shelf_height / 2) - 1/10⟩ }
  let crown2 :=
    { crown with location := ⟨0, 0, shelf_height / 2 + 8/100⟩ }
  (brackets2, backing2, crown2)

/-- The face-index invariant: every face of the mesh references only
indices strictly below the vertex-list length. -/
def validMesh (m : MeshObject) : Prop :=
  ∀ f ∈ m.faces, ∀ i ∈ f, i < m.verts.length

/-- Closed form for the bracket X positions list. -/
lemma bracketXs_getD (s : MeshObject) (n i : ℕ) (h : i < n) :
    (bracketXs s n).getD i 0 =
      s.location.x + (if n = 1 then 0
        else ((i : ℚ) / ((n : ℚ) - 1) - 1/2) * (dimX s * (8/10))) := by
  have hlen : i < (bracketXs s n).length := by
    simp only [bracketXs, position_brackets_on_shelf, List.length_map,
      List.length_range]
    exact h
  rw [List.getD_eq_getElem _ _ hlen]
  simp only [bracketXs, position_brackets_on_shelf, List.getElem_map,
    List.getElem_range]

/-- C2: for bracket count 1 the single bracket X position is the shelf
center X; for count `n > 1` the positions are symmetric about the shelf
center X, consecutive positions differ by the constant
`0.8 * width / (n-1)`, and the outermost brackets span exactly 80 percent
of the shelf width. -/
theorem bracket_positions (s : MeshObject) (n : ℕ) :
    (bracketXs s 1 = [s.location.x]) ∧
    (∀ i, 1 < n → i < n →
      (bracketXs s n).getD i 0 + (bracketXs s n).getD (n - 1 - i) 0
        = 2 * s.location.x) ∧
    (∀ i, i + 1 < n →
      (bracketXs s n).getD (i + 1) 0 - (bracketXs s n).getD i 0
        = dimX s * (8/10) / ((n : ℚ) - 1)) ∧
    (1 < n →
      (bracketXs s n).getD (n - 1) 0 - (bracketXs s n).getD 0 0
        = dimX s * (8/10)) := by
  refine ⟨?_, ?_, ?_, ?_⟩
  · simp [bracketXs, position_brackets_on_shelf, List.range_succ]
  · intro i hn hi
    have hn1 : n ≠ 1 := by omega
    have hcast : (1 : ℚ) < (n : ℚ) := by exact_mod_cast hn
    have hne : (n : ℚ) - 1 ≠ 0 := by intro hc; linarith
    have hj : n - 1 - i < n := by omega
    rw [bracketXs_getD s n i hi, bracketXs_getD s n (n - 1 - i) hj,
      if_neg hn1, if_neg hn1]
    have hsub : ((n - 1 - i : ℕ) : ℚ) = (n : ℚ) - 1 - (i : ℚ) := by
      have he : n - 1 - i = n - (1 + i) := by omega
      rw [he, Nat.cast_sub (by omega : 1 + i ≤ n)]
      push_cast
      ring
    rw [hsub]
    field_simp
    ring
  · intro i hi
    have hn1 : n ≠ 1 := by omega
    have hcast : (1 : ℚ) < (n : ℚ) := by exact_mod_cast (by omega : 1 < n)
    have hne : (n : ℚ) - 1 ≠ 0 := by intro hc; linarith
    rw [bracketXs_getD s n (i + 1) (by omega), bracketXs_getD s n i (by omega),
      if_neg hn1, if_neg hn1]
    push_cast
    field_simp
    ring
  · intro hn
    have hn1 : n ≠ 1 := by omega
    have hcast : (1 : ℚ) < (n : ℚ) := by exact_mod_cast hn
    have hne : (n : ℚ) - 1 ≠ 0 := by intro hc; linarith
    rw [bracketXs_getD s n (n - 1) (by omega), bracketXs_getD s n 0 (by omega),
      if_neg hn1, if_neg hn1]
    have hsub : ((n - 1 : ℕ) : ℚ) = (n : ℚ) - 1 := by
      rw [Nat.cast_sub (by omega : 1 ≤ n)]
      push_cast
      ring
    rw [hsub]
    field_simp
    ring

/-- A concrete shelf for witnessing the bracket-position theorem. -/
def demoShelf : MeshObject := create_main_shelf "MainShelf" 2 (1/10) (3/5)

/-- C2 witness: at bracket count 3 over a concrete shelf, the positions are
symmetric, evenly spaced and span 80 percent of the width, and at count 1
the single bracket is centered. -/
theorem bracket_positions_witness :
    (bracketXs demoShelf 1 = [demoShelf.location.x]) ∧
    ((bracketXs demoShelf 3).getD 0 0 + (bracketXs demoShelf 3).getD 2 0
      = 2 * demoShelf.location.x) ∧
    ((bracketXs demoShelf 3).getD 1 0 - (bracketXs demoShelf 3).getD 0 0
      = dimX demoShelf * (8/10) / ((3 : ℚ) - 1)) ∧
    ((bracketXs demoShelf 3).getD 2 0 - (bracketXs demoShelf 3).getD 0 0
      = dimX demoShelf * (8/10)) := by
  obtain ⟨h1, h2, h3, h4⟩ := bracket_positions demoShelf 3
  exact ⟨h1, by simpa using h2 0 (by norm_num) (by norm_num),
    h3 0 (by norm_num), by simpa using h4 (by norm_num)⟩

/-- C3: the backing-positioning step puts the backing Y location at the
shelf Y location minus half the shelf Y extent minus the clearance offset;
instantiated at the shelf builder this is the shelf Y minus `depth/2` minus
the offset, and the monolithic layout uses the fixed clearance 0.01 with
the shelf centered at Y = 0. -/
theorem backing_y_position (backing shelf crown : MeshObject)
    (brackets : List MeshObject) (offset w h d : ℚ)
    (hw : 0 < w) (hh : 0 < h) (hd : 0 < d) :
    ((position_backing_behind_shelf backing shelf offset).location.y
      = shelf.location.y - dimY shelf / 2 - offset) ∧
    ((position_backing_behind_shelf backing
        (create_main_shelf "MainShelf" w h d) offset).location.y
      = (create_main_shelf "MainShelf" w h d).location.y - d / 2 - offset) ∧
    (((position_components brackets backing crown w h d).2.1).location.y
      = 0 - d / 2 - 1/100) := by
  refine ⟨rfl, ?_, ?_⟩
  · have hdim := (main_shelf_dims "MainShelf" w h d
      (le_of_lt hw) (le_of_lt hh) (le_of_lt hd)).2.1
    show (create_main_shelf "MainShelf" w h d).location.y
      - dimY (create_main_shelf "MainShelf" w h d) / 2 - offset = _
    rw [hdim]
  · show -(d / 2) - 1/100 = 0 - d / 2 - 1/100
    ring

/-- C3 witness: concrete backing, shelf and offset. -/
theorem backing_y_position_witness :
    ((position_backing_behind_shelf (create_backing_plane "Backing" (11/5) (3/2) (1/50))
        (create_main_shelf "MainShelf" 2 (3/10) (2/5)) (1/100)).location.y
      = (create_main_shelf "MainShelf" 2 (3/10) (2/5)).location.y
          - dimY (create_main_shelf "MainShelf" 2 (3/10) (2/5)) / 2 - 1/100) ∧
    ((position_backing_behind_shelf (create_backing_plane "Backing" (11/5) (3/2) (1/50))
        (create_main_shelf "MainShelf" 2 (3/10) (2/5)) (1/100)).location.y
      = (create_main_shelf "MainShelf" 2 (3/10) (2/5)).location.y
          - (2/5 : ℚ) / 2 - 1/100) := by
  obtain ⟨h1, h2, _⟩ := backing_y_position
    (create_backing_plane "Backing" (11/5) (3/2) (1/50))
    (create_main_shelf "MainShelf" 2 (3/10) (2/5))
    (create_backing_plane "Crown" 1 1 1) [] (1/100) 2 (3/10) (2/5)
    (by norm_num) (by norm_num) (by norm_num)
  exact ⟨h1, h2⟩

/-- C4: the crown-positioning step puts the crown Z location at the backing
Z location plus half the backing Z extent plus the configured offset, and
copies the backing X and Y locations; instantiated at the backing plane
builder the Z shift is `backing_height/2` plus the offset. -/
theorem crown_position (crown backing : MeshObject)
    (height_offset bw bh bt : ℚ) (hbw : 0 < bw) (hbh : 0 < bh) (hbt : 0 < bt) :
    ((position_crown_above_backing crown backing height_offset).location.z
      = backing.location.z + dimZ backing / 2 + height_offset) ∧
    ((position_crown_above_backing crown backing height_offset).location.x
      = backing.location.x) ∧
    ((position_crown_above_backing crown backing height_offset).location.y
      = backing.location.y) ∧
    ((position_crown_above_backing crown
        (create_backing_plane "Backing" bw bh bt) height_offset).location.z
      = (create_backing_plane "Backing" bw bh bt).location.z
          + bh / 2 + height_offset) := by
  refine ⟨rfl, rfl, rfl, ?_⟩
  have hdim := (backing_plane_dims "Backing" bw bh bt
    (le_of_lt hbw) (le_of_lt hbh) (le_of_lt hbt)).2.2
  show (create_backing_plane "Backing" bw bh bt).location.z
    + dimZ (create_backing_plane "Backing" bw bh bt) / 2 + height_offset = _
  rw [hdim]

/-- C4 witness: concrete crown, backing and offset. -/
theorem crown_position_witness :
    ((position_crown_above_backing (create_backing_plane "Crown" 1 1 1)
        (create_backing_plane "Backing" (11/5) (3/2) (1/50)) (1/10)).location.z
      = (create_backing_plane "Backing" (11/5) (3/2) (1/50)).location.z
          + dimZ (create_backing_plane "Backing" (11/5) (3/2) (1/50)) / 2 + 1/10) ∧
    ((position_crown_above_backing (create_backing_plane "Crown" 1 1 1)
        (create_backing_plane "Backing" (11/5) (3/2) (1/50)) (1/10)).location.z
      = (create_backing_plane "Backing" (11/5) (3/2) (1/50)).location.z
          + (3/2 : ℚ) / 2 + 1/10) := by
  obtain ⟨h1, _, _, h4⟩ := crown_position (create_backing_plane "Crown" 1 1 1)
    (create_backing_plane "Backing" (11/5) (3/2) (1/50)) (1/10)
    (11/5) (3/2) (1/50) (by norm_num) (by norm_num) (by norm_num)
  exact ⟨h1, h4⟩

/-- C9: every mesh produced by the builders satisfies the face-index
invariant — each face references only indices below the vertex count; in
particular the hand-written bracket face list over six vertices. -/
theorem builders_face_indices_valid (w h d : ℚ) (nm : String) (bl bh bt : ℚ)
    (nm2 : String) (sw sh sd : ℚ) (nm3 : String) (pw ph pt : ℚ) :
    validMesh (create_support_bracket w h d) ∧
    validMesh (create_bracket_support nm bl bh bt) ∧
    validMesh (create_main_shelf nm2 sw sh sd) ∧
    validMesh (create_backing_plane nm3 pw ph pt) := by
  refine ⟨?_, ?_, ?_, ?_⟩ <;>
    simp [validMesh, create_support_bracket, create_bracket_support,
      create_main_shelf, create_backing_plane, cubeFaces, scaleVerts,
      unitCubeVerts]

/-- Truncation toward zero, the semantics of Python `int()` on a float
ratio (here exact): numerator divided by denominator with Lean integer
division, which truncates toward zero. -/
def ratTrunc (q : ℚ) : ℤ := q.num / (q.den : ℤ)

/-- `geometry/backing.py: create_pegboard_holes(backing_obj, hole_spacing,
hole_diameter)` — computes the hole grid counts and per-hole positions but
the loop body is `pass`; the mesh is left untouched. -/
def create_pegboard_holes (backing : MeshObject)
    (hole_spacing _hole_diameter : ℚ) : MeshObject :=
  let width := dimX backing
  let height := dimZ backing
  let holes_x := (ratTrunc (width / hole_spacing)).toNat
  let holes_z := (ratTrunc (height / hole_spacing)).toNat
  let _hole_positions := (List.range holes_x).map fun (i : ℕ) =>
    (List.range holes_z).map fun (j : ℕ) =>
      (((i : ℚ) / (holes_x : ℚ) - 1/2) * width * (9/10),
       ((j : ℚ) / (holes_z : ℚ) - 1/2) * height * (9/10))
  backing

/-- C7: the pegboard hole-cutting operation returns the backing with its
vertex list and face list (and everything else) unchanged, for every hole
spacing and diameter: the hole-creation loop is a no-op placeholder. -/
theorem pegboard_holes_noop (b : MeshObject) (spacing diameter : ℚ) :
    (create_pegboard_holes b spacing diameter).verts = b.verts ∧
    (create_pegboard_holes b spacing diameter).faces = b.faces ∧
    create_pegboard_holes b spacing diameter = b :=
  ⟨rfl, rfl, rfl⟩

/-- Python `str.upper()`: uppercase every character. -/
def strUpper (s : String) : String := ⟨s.data.map Char.toUpper⟩

/-- Python `str.lower()`: lowercase every character. -/
def strLower (s : String) : String := ⟨s.data.map Char.toLower⟩

/-- `gen_shelf.py: export_shelf(export_path, export_format)` — writes one
file when the upper-cased format matches FBX, OBJ or PLY; any other format
falls through the if/elif chain: no file is written and no error is
raised.  The result is the list of files written, or an error. -/
def export_shelf (export_path export_format : String) :
    Except String (List String) :=
  let filepath := export_path ++ "/blockbuster_shelf." ++ strLower export_format
  if strUpper export_format = "FBX" then Except.ok [filepath]
  else if strUpper export_format = "OBJ" then Except.ok [filepath]
  else if strUpper export_format = "PLY" then Except.ok [filepath]
  else Except.ok []

/-- `utils/scene_utils.py: export_shelf_assembly(objects, filepath,
file_format)` — writes the file for FBX, OBJ or GLTF and raises
`ValueError("Unsupported export format: ...")` otherwise. -/
def export_shelf_assembly (filepath file_format : String) :
    Except String (List String) :=
  if strUpper file_format = "FBX" then Except.ok [filepath]
  else if strUpper file_format = "OBJ" then Except.ok [filepath]
  else if strUpper file_format = "GLTF" then Except.ok [filepath]
  else Except.error ("Unsupported export format: " ++ file_format)

/-- C5 counterexample: the monolithic export with format "STL" — not a
supported interchange format — raises no error and writes no mesh file:
it silently succeeds. -/
theorem export_unsupported_counterexample :
    ("STL" ∉ ["FBX", "OBJ", "PLY", "GLTF"]) ∧
    export_shelf "/app/output" "STL" = Except.ok [] := by
  constructor
  · decide
  · simp only [export_shelf]
    rw [if_neg (by decide), if_neg (by decide), if_neg (by decide)]

/-- C5 amended: the modular export utility raises a ValueError for every
format whose upper-casing is none of FBX, OBJ, GLTF; the monolithic
`export_shelf` instead silently writes nothing for a format outside its
FBX/OBJ/PLY chain (its CLI restricts the flag to those three choices). -/
theorem export_unsupported_amended (filepath path fmt : String)
    (h1 : strUpper fmt ≠ "FBX") (h2 : strUpper fmt ≠ "OBJ")
    (h3 : strUpper fmt ≠ "GLTF") (h4 : strUpper fmt ≠ "PLY") :
    export_shelf_assembly filepath fmt
      = Except.error ("Unsupported export format: " ++ fmt) ∧
    export_shelf path fmt = Except.ok [] := by
  constructor
  · simp only [export_shelf_assembly]
    rw [if_neg h1, if_neg h2, if_neg h3]
  · simp only [export_shelf]
    rw [if_neg h1, if_neg h2, if_neg h4]

/-- C5 amended witness: format "STL". -/
theorem export_unsupported_amended_witness :
    export_shelf_assembly "/tmp/blockbuster_shelf.stl" "STL"
      = Except.error ("Unsupported export format: STL") ∧
    export_shelf "/app/output" "STL" = Except.ok [] := by
  have h := export_unsupported_amended "/tmp/blockbuster_shelf.stl"
    "/app/output" "STL" (by decide) (by decide) (by decide) (by decide)
  simpa using h

/-- The format list of the modular multi-format export loop. -/
def exportFormats : List String := ["FBX", "OBJ", "GLTF"]

/-- The per-format loop body of `gen_shelf_modular.py: export_shelf_models`:
each format is attempted in order; an exception from the export call is
caught and turned into a log line, and the loop continues.  Returns the
list of formats on which the export call was made, and the log lines.
The export behavior of the host is abstracted as `exp`. -/
def exportLoop (exp : String → Except String Unit) (output_dir : String) :
    List String → List String × List String
  | [] => ([], [])
  | fmt :: rest =>
      let filepath := output_dir ++ "/blockbuster_shelf." ++ strLower fmt
      let log := match exp fmt with
        | Except.ok _ => "Exported " ++ fmt ++ ": " ++ filepath
        | Except.error e => "Failed to export " ++ fmt ++ ": " ++ e
      (fmt :: (exportLoop exp output_dir rest).1,
       log :: (exportLoop exp output_dir rest).2)

/-- `gen_shelf_modular.py: export_shelf_models(shelf_assembly, output_dir)` —
runs the loop over FBX, OBJ, GLTF. -/
def export_shelf_models (exp : String → Except String Unit)
    (output_dir : String) : List String × List String :=
  exportLoop exp output_dir exportFormats

/-- C8: whatever the host export behavior, every format in the list gets an
export call (a failure at one position never prevents the later calls), the
loop itself never raises, and a failing format is merely logged while every
later format is still attempted. -/
theorem export_loop_attempts_all (exp : String → Except String Unit)
    (dir : String) :
    ((export_shelf_models exp dir).1 = ["FBX", "OBJ", "GLTF"]) ∧
    (∀ i e, i < 3 → exp (exportFormats.getD i "") = Except.error e →
      ((export_shelf_models exp dir).2.getD i ""
        = "Failed to export " ++ exportFormats.getD i "" ++ ": " ++ e) ∧
      ∀ j, i < j → j < 3 →
        (export_shelf_models exp dir).1.getD j "" = exportFormats.getD j "") := by
  constructor
  · simp [export_shelf_models, exportFormats, exportLoop]
  · intro i e hi hfail
    interval_cases i <;>
      simp only [exportFormats, List.getD_cons_zero, List.getD_cons_succ]
        at hfail ⊢ <;>
      refine ⟨by simp [export_shelf_models, exportFormats, exportLoop, hfail], ?_⟩ <;>
      intro j hj1 hj2 <;>
      (interval_cases j <;>
        simp [export_shelf_models, exportFormats, exportLoop, hfail])

/-- A concrete failing export behavior for the witness: OBJ fails, the
rest succeed. -/
def demoExport : String → Except String Unit := fun fmt =>
  if fmt = "OBJ" then Except.error "disk full" else Except.ok ()

/-- C8 witness: with OBJ failing, the OBJ failure is logged and GLTF is
still attempted afterwards. -/
theorem export_loop_attempts_all_witness :
    ((export_shelf_models demoExport "/tmp").2.getD 1 ""
      = "Failed to export OBJ: disk full") ∧
    ((export_shelf_models demoExport "/tmp").1.getD 2 "" = "GLTF") := by
  obtain ⟨h1, h2⟩ := export_loop_attempts_all demoExport "/tmp"
  have h3 := h2 1 "disk full" (by norm_num) (by rfl)
  exact ⟨by simpa using h3.1, by simpa using h3.2 2 (by norm_num) (by norm_num)⟩

/-- A JSON value, as far as the sidecar file needs: strings, numbers,
booleans, arrays and objects (association lists). -/
inductive JsonVal where
  | str : String → JsonVal
  | num : ℚ → JsonVal
  | bool : Bool → JsonVal
  | arr : List JsonVal → JsonVal
  | obj : List (String × JsonVal) → JsonVal

/-- The CLI arguments of `gen_shelf.py: parse_arguments()`. -/
structure CliArgs where
  width : ℚ
  height : ℚ
  depth : ℚ
  backing_height : ℚ
  pegboard : Bool
  export_format : String
  export_path : String
  no_materials : Bool

/-- The keyword arguments `main()` passes to `save_generation_info`: the
six CLI values echoed verbatim. -/
def mainInfoParams (a : CliArgs) : List (String × JsonVal) :=
  [("width", JsonVal.num a.width),
   ("height", JsonVal.num a.height),
   ("depth", JsonVal.num a.depth),
   ("backing_height", JsonVal.num a.backing_height),
   ("pegboard", JsonVal.bool a.pegboard),
   ("export_format", JsonVal.str a.export_format)]

/-- `gen_shelf.py: save_generation_info(export_path, **kwargs)` — the JSON
object written to `shelf_info.json`: description, generator, timestamp
(the scene frame counter), the echoed parameters, and the fixed component
name list. -/
def save_generation_info (timestamp : ℤ) (params : List (String × JsonVal)) :
    List (String × JsonVal) :=
  [("description",
    JsonVal.str "Procedurally generated Blockbuster-style video store shelf"),
   ("generator", JsonVal.str "Blender Python Script"),
   ("timestamp", JsonVal.num (timestamp : ℚ)),
   ("parameters", JsonVal.obj params),
   ("components", JsonVal.arr
     [JsonVal.str "ShelfBase", JsonVal.str "SupportBrackets",
      JsonVal.str "BackingPanel", JsonVal.str "CrownMolding"])]

/-- C6: the sidecar object has exactly the keys description, generator,
timestamp, parameters and components, in that order, and its parameters
value is exactly the echoed CLI arguments — width, height, depth,
backing_height, pegboard and export_format map to the input values with no
transformation. -/
theorem generation_info_roundtrip (a : CliArgs) (t : ℤ) :
    ((save_generation_info t (mainInfoParams a)).map Prod.fst
      = ["description", "generator", "timestamp", "parameters", "components"]) ∧
    ((save_generation_info t (mainInfoParams a)).lookup "parameters"
      = some (JsonVal.obj (mainInfoParams a))) ∧
    ((mainInfoParams a).map Prod.fst
      = ["width", "height", "depth", "backing_height", "pegboard",
         "export_format"]) ∧
    ((mainInfoParams a).lookup "width" = some (JsonVal.num a.width)) ∧
    ((mainInfoParams a).lookup "height" = some (JsonVal.num a.height)) ∧
    ((mainInfoParams a).lookup "depth" = some (JsonVal.num a.depth)) ∧
    ((mainInfoParams a).lookup "backing_height"
      = some (JsonVal.num a.backing_height)) ∧
    ((mainInfoParams a).lookup "pegboard" = some (JsonVal.bool a.pegboard)) ∧
    ((mainInfoParams a).lookup "export_format"
      = some (JsonVal.str a.export_format)) := by
  refine ⟨rfl, ?_, rfl, ?_, ?_, ?_, ?_, ?_, ?_⟩ <;>
    simp [save_generation_info, mainInfoParams, List.lookup]

/-- `geometry/shelf.py: add_shelf_material(obj, color)` — creates a new
material named after the object with roughness 0.7; replaces slot 0 when
the object already has materials, appends otherwise. -/
def add_shelf_material (obj : MeshObject) (color : ℚ × ℚ × ℚ × ℚ) :
    MeshObject :=
  let mat : Material := ⟨obj.name ++ "_Material", color, 7/10, 0, 0⟩
  { obj with materials :=
      if obj.materials ≠ [] then obj.materials.set 0 mat
      else obj.materials ++ [mat] }

/-- `geometry/backing.py: add_backing_material(obj, color)` — same slot
behavior as the shelf assigner, roughness 0.8. -/
def add_backing_material (obj : MeshObject) (color : ℚ × ℚ × ℚ × ℚ) :
    MeshObject :=
  let mat : Material := ⟨obj.name ++ "_Material", color, 8/10, 0, 0⟩
  { obj with materials :=
      if obj.materials ≠ [] then obj.materials.set 0 mat
      else obj.materials ++ [mat] }

/-- `geometry/crown.py: add_crown_material(obj, color)` — same slot
behavior, roughness 0.6 and metallic 0.1. -/
def add_crown_material (obj : MeshObject) (color : ℚ × ℚ × ℚ × ℚ) :
    MeshObject :=
  let mat : Material := ⟨obj.name ++ "_Material", color, 6/10, 1/10, 0⟩
  { obj with materials :=
      if obj.materials ≠ [] then obj.materials.set 0 mat
      else obj.materials ++ [mat] }

/-- `geometry/brackets.py: add_bracket_material(bracket_obj, color)` —
creates a new material (roughness 0.3, specular 0.1) and always appends a
new slot. -/
def add_bracket_material (obj : MeshObject) (color : ℚ × ℚ × ℚ × ℚ) :
    MeshObject :=
  let mat : Material := ⟨obj.name ++ "_Material", color, 3/10, 0, 1/10⟩
  { obj with materials := obj.materials ++ [mat] }

/-- The replace-or-append slot update leaves the new material in slot 0. -/
lemma setslot_head (mats : List Material) (mat : Material) :
    (if mats ≠ [] then mats.set 0 mat else mats ++ [mat]).head? = some mat := by
  cases mats <;> simp

/-- The replace-or-append slot update yields `max 1` of the old count. -/
lemma setslot_length (mats : List Material) (mat : Material) :
    (if mats ≠ [] then mats.set 0 mat else mats ++ [mat]).length
      = max 1 mats.length := by
  cases mats with
  | nil => simp
  | cons a l => simp [Nat.max_def]

/-- C10: the shelf, backing and crown material assigners leave slot 0
holding the newly created material and repeated calls never grow the slot
count; the bracket assigner always appends, so two calls on a fresh
bracket leave exactly two slots. -/
theorem material_slot_behavior (obj : MeshObject) (c c2 : ℚ × ℚ × ℚ × ℚ)
    (nm : String) (bl bh bt : ℚ) :
    ((add_shelf_material obj c).materials.head?
      = some ⟨obj.name ++ "_Material", c, 7/10, 0, 0⟩) ∧
    ((add_shelf_material (add_shelf_material obj c) c2).materials.length
      = (add_shelf_material obj c).materials.length) ∧
    ((add_backing_material obj c).materials.head?
      = some ⟨obj.name ++ "_Material", c, 8/10, 0, 0⟩) ∧
    ((add_backing_material (add_backing_material obj c) c2).materials.length
      = (add_backing_material obj c).materials.length) ∧
    ((add_crown_material obj c).materials.head?
      = some ⟨obj.name ++ "_Material", c, 6/10, 1/10, 0⟩) ∧
    ((add_crown_material (add_crown_material obj c) c2).materials.length
      = (add_crown_material obj c).materials.length) ∧
    ((add_bracket_material obj c).materials.length
      = obj.materials.length + 1) ∧
    ((add_bracket_material (add_bracket_material
        (create_bracket_support nm bl bh bt) c) c2).materials.length = 2) := by
  refine ⟨?_, ?_, ?_, ?_, ?_, ?_, ?_, ?_⟩
  · exact setslot_head obj.materials _
  · simp only [add_shelf_material]
    rw [setslot_length, setslot_length]
    omega
  · exact setslot_head obj.materials _
  · simp only [add_backing_material]
    rw [setslot_length, setslot_length]
    omega
  · exact setslot_head obj.materials _
  · simp only [add_crown_material]
    rw [setslot_length, setslot_length]
    omega
  · simp [add_bracket_material]
  · simp [add_bracket_material, create_bracket_support]
